import Mathlib

/-!
# Streaming-connection clients: `client/chat.js` and `client/dashboard.js`

A shallow embedding of the two browser clients.  The module-level variables
`ws`, `reconnectAttempts` and `chartData` become fields of an explicit state;
every handler is a function from the state before to the state after together
with the list of observable calls it made (`Effect`).  The browser is the
environment: it delivers the events of `Event` to the handlers.

What is not modelled: the contents of DOM writes (text, CSS classes, canvas
drawing), which never feed back into `ws`, `reconnectAttempts` or `chartData`.
-/

namespace WsClient

/-! ## JavaScript values -/

/-- The primitive JavaScript values a field of a decoded frame can hold.
Numbers are carried around but never computed with, so a rational stands for
the number.  Nested arrays and objects as field values are outside the model. -/
inductive JSVal where
  | undefined
  | null
  | bool (b : Bool)
  | num (q : ℚ)
  | str (s : String)
  deriving DecidableEq

/-- Whether `typeof v` is `"number"`, that is, whether `v.toFixed` is callable. -/
def JSVal.isNumber : JSVal → Bool
  | .num _ => true
  | _ => false

/-- What `JSON.parse(event.data)` returns when it does not throw: `null`, another
value without own fields (number, string, boolean, array), or an object given
by its own properties. -/
inductive Decoded where
  | null
  | fieldless
  | obj (fields : List (String × JSVal))
  deriving DecidableEq

/-- The property read `data.k` on a value other than `null`: the own property
when there is one and `undefined` otherwise (none of the names read by the
clients is inherited from a prototype). -/
def Decoded.read : Decoded → String → JSVal
  | .obj fields, k => (fields.lookup k).getD .undefined
  | _, _ => .undefined

/-- How a piece of JavaScript ended: normally, or by throwing. -/
inductive Completion where
  | normal
  | thrown (error : String)
  deriving DecidableEq

/-- The frames the clients send. -/
inductive Outbound where
  | chat (name text : String) (ts : Nat)
  | subscribe (metrics : List String)
  deriving DecidableEq

/-- The observable calls made by the handlers, in the order they are made. -/
inductive Effect where
  | consoleLog (msg : String) (args : List JSVal)
  | consoleWarn (msg : String) (args : List JSVal)
  | consoleError (msg : String)
  | updateStatus (state text : String)
  | enableInput
  | disableInput
  | addChatMessage (data : Decoded)
  | addSystemMessage (text : JSVal)
  | addErrorMessage (text : JSVal)
  | updateOnlineCount (count : JSVal)
  | updateMetric (metric value timestamp : JSVal)
  | updateMetricCards
  | newWebSocket (url : String)
  | setTimeoutConnect (delay : Nat)
  | wsSend (frame : Outbound)
  | localStorageSetItem (key value : String)
  | clearMessageInput
  deriving DecidableEq

/-- The delays of the `setTimeout(connect, delay)` calls among the effects. -/
def scheduledDelays : List Effect → List Nat
  | [] => []
  | .setTimeoutConnect d :: es => d :: scheduledDelays es
  | _ :: es => scheduledDelays es

/-- The frames handed to `ws.send` among the effects. -/
def sentFrames : List Effect → List Outbound
  | [] => []
  | .wsSend f :: es => f :: sentFrames es
  | _ :: es => sentFrames es

/-! ## Connection state shared by both files -/

/-- `WebSocket.CONNECTING` (0), `OPEN` (1), `CLOSING` (2), `CLOSED` (3). -/
inductive ReadyState where
  | CONNECTING
  | OPEN
  | CLOSING
  | CLOSED
  deriving DecidableEq

def MAX_RECONNECT_ATTEMPTS : Nat := 5

def BASE_RECONNECT_DELAY : Nat := 1000

/-- The connection variables of a page.  `sockets` lists every `WebSocket`
object `connect` has created, in order of creation, with its `readyState`;
`ws` is the module variable (`none` for `null`, otherwise the index of the
object it refers to); `timers` holds the delays of the pending
`setTimeout(connect, delay)` callbacks. -/
structure Conn where
  reconnectAttempts : Nat
  sockets : List ReadyState
  ws : Option Nat
  timers : List Nat
  deriving DecidableEq

/-- The `readyState` seen through `ws`; `none` when `ws` is `null`. -/
def Conn.wsReadyState (c : Conn) : Option ReadyState :=
  c.ws.bind fun i => c.sockets.get? i

/-- The guard `!ws || ws.readyState !== WebSocket.OPEN` of the send functions. -/
def notOpen : Option ReadyState → Bool
  | some .OPEN => false
  | _ => true

/-- Number of created sockets that have not yet closed. -/
def Conn.liveSockets (c : Conn) : Nat :=
  (c.sockets.filter fun r => decide (r ≠ .CLOSED)).length

/-- Sockets that have not yet closed plus pending reconnect timers. -/
def Conn.activeHandles (c : Conn) : Nat :=
  c.liveSockets + c.timers.length

/-- The variables as the script initialises them, before `connect()` runs. -/
def Conn.initial : Conn :=
  { reconnectAttempts := 0, sockets := [], ws := none, timers := [] }

/-- The events the browser delivers.  `i` is the index of the socket whose
handler runs, `k` the position of the timer that fires.  A message event is
given by what `JSON.parse` does with its data (`none`: it throws).
`ctorThrows` says whether `new WebSocket(wsUrl)` throws in the `connect()` the
timer runs.  `closing` is the browser moving a socket to CLOSING, which runs
no handler. -/
inductive Event (υ : Type) where
  | opened (i : Nat)
  | message (i : Nat) (payload : Option Decoded)
  | error (i : Nat)
  | closing (i : Nat)
  | close (i : Nat) (code : Nat) (reason : String)
  | timer (k : Nat) (ctorThrows : Bool)
  | user (u : υ)

/-- `String.prototype.trim` strips WhiteSpace and LineTerminator code points. -/
def isJSWhiteSpace (c : Char) : Bool :=
  let n := c.toNat
  n == 0x9 || n == 0xA || n == 0xB || n == 0xC || n == 0xD || n == 0x20 || n == 0xA0 ||
  n == 0x1680 || (0x2000 ≤ n && n ≤ 0x200A) || n == 0x2028 || n == 0x2029 ||
  n == 0x202F || n == 0x205F || n == 0x3000 || n == 0xFEFF

/-- Model of `s.trim()`. -/
def trim (s : String) : String :=
  String.mk ((s.data.dropWhile isJSWhiteSpace).reverse.dropWhile isJSWhiteSpace).reverse

/-- Model of the template literal in the reconnect status text, for a delay
that is a whole number of seconds. -/
def reconnectStatusText (delay : Nat) : String :=
  "Kết nối lại sau " ++ toString (delay / 1000) ++ "s..."

/-- Model of the template literal of the reconnect log line. -/
def reconnectLogText (delay attempts : Nat) : String :=
  "[WS] Reconnecting in " ++ toString delay ++ "ms (attempt " ++ toString attempts ++ "/" ++
    toString MAX_RECONNECT_ATTEMPTS ++ ")"

/-! ## chat.js -/

namespace Chat

/-- `handleMessage(data)` of chat.js: the calls made and how it completes.
Reading `data.type` on `null` throws a TypeError; the `switch` compares with
`===`.  The variant handlers only write to the DOM. -/
def handleMessage (data : Decoded) : List Effect × Completion :=
  match data with
  | .null => ([], .thrown "TypeError")
  | _ =>
    if data.read "type" = .str "chat" then
      ([.addChatMessage data], .normal)
    else if data.read "type" = .str "system" then
      if data.read "online_count" ≠ .undefined then
        ([.addSystemMessage (data.read "text"), .updateOnlineCount (data.read "online_count")],
          .normal)
      else
        ([.addSystemMessage (data.read "text")], .normal)
    else if data.read "type" = .str "error" then
      ([.addErrorMessage (data.read "text")], .normal)
    else
      ([.consoleWarn "[WS] Unknown message type:" [data.read "type"]], .normal)

/-- `sendMessage()` of chat.js.  `nameValue` and `textValue` are the contents
of the two input fields, `now` is `Date.now()`, `ws` the `readyState` seen
through the module variable (`none` for `null`).  The function returns
`undefined` on every path; what it did is the list of calls. -/
def sendMessage (nameValue textValue : String) (now : Nat) (ws : Option ReadyState) :
    List Effect :=
  let name := trim nameValue
  let text := trim textValue
  if name = "" ∨ text = "" then
    []
  else if notOpen ws then
    [.localStorageSetItem "chatName" name, .addErrorMessage (.str "Chưa kết nối với server!")]
  else
    [.localStorageSetItem "chatName" name, .wsSend (.chat name text now),
      .consoleLog "[WS] Sent:" [], .clearMessageInput]

/-- `connect()` of chat.js.  When the constructor throws, the `catch` leaves
`ws` as it was and no handler is installed. -/
def connect (ctorThrows : Bool) (c : Conn) : Conn × List Effect :=
  let pre : List Effect :=
    [.consoleLog "[WS] Connecting to:" [.str "ws://localhost:8765/ws/chat"],
      .updateStatus "connecting" "Đang kết nối..."]
  if ctorThrows then
    (c, pre ++ [.consoleError "[WS] Failed to create WebSocket:",
      .updateStatus "disconnected" "Không thể kết nối"])
  else
    ({ c with sockets := c.sockets ++ [.CONNECTING], ws := some c.sockets.length },
      pre ++ [.newWebSocket "ws://localhost:8765/ws/chat"])

/-- Body of `ws.onopen`. -/
def onopen (c : Conn) : Conn × List Effect :=
  ({ c with reconnectAttempts := 0 },
    [.consoleLog "[WS] Connected!" [], .updateStatus "connected" "Đã kết nối", .enableInput])

/-- Body of `ws.onmessage`: the `try` around `JSON.parse` and `handleMessage`. -/
def onmessage (payload : Option Decoded) (c : Conn) : Conn × List Effect :=
  let pre : List Effect := [.consoleLog "[WS] Message received:" []]
  match payload with
  | none => (c, pre ++ [.consoleError "[WS] Failed to parse message:"])
  | some data =>
    match handleMessage data with
    | (calls, .normal) => (c, pre ++ calls)
    | (calls, .thrown _) => (c, pre ++ calls ++ [.consoleError "[WS] Failed to parse message:"])

/-- Body of `ws.onerror`. -/
def onerror (c : Conn) : Conn × List Effect :=
  (c, [.consoleError "[WS] Error:", .updateStatus "disconnected" "Lỗi kết nối"])

/-- Body of `ws.onclose` for a close event with the given code and reason. -/
def onclose (code : Nat) (reason : String) (c : Conn) : Conn × List Effect :=
  let pre : List Effect :=
    [.consoleLog "[WS] Closed:" [.num code, .str reason],
      .updateStatus "disconnected" "Mất kết nối", .disableInput]
  if c.reconnectAttempts < MAX_RECONNECT_ATTEMPTS then
    let delay := BASE_RECONNECT_DELAY * 2 ^ c.reconnectAttempts
    let attempts := c.reconnectAttempts + 1
    ({ c with reconnectAttempts := attempts, timers := c.timers ++ [delay] },
      pre ++ [.consoleLog (reconnectLogText delay attempts) [],
        .updateStatus "connecting" (reconnectStatusText delay),
        .setTimeoutConnect delay])
  else
    (c, pre ++ [.updateStatus "disconnected" "Không thể kết nối. Vui lòng tải lại trang.",
      .addSystemMessage (.str "⚠️ Mất kết nối với server. Vui lòng tải lại trang.")])

/-- A click on the send button or Enter in the message field: the contents of
the two input fields and the clock. -/
structure SendInput where
  nameValue : String
  textValue : String
  now : Nat

/-- One event delivered to the chat page; `none` when the browser cannot
deliver it in this state (the socket does not exist or has closed, `open` on a
socket that is not connecting, a message on a socket that is not open, no such
timer). -/
def step (c : Conn) : Event SendInput → Option (Conn × List Effect)
  | .opened i =>
    if c.sockets.get? i = some .CONNECTING then
      some (onopen { c with sockets := c.sockets.set i .OPEN })
    else none
  | .message i payload =>
    if c.sockets.get? i = some .OPEN then some (onmessage payload c) else none
  | .error i =>
    match c.sockets.get? i with
    | some .CLOSED => none
    | some _ => some (onerror c)
    | none => none
  | .closing i =>
    match c.sockets.get? i with
    | some .CLOSED => none
    | some _ => some ({ c with sockets := c.sockets.set i .CLOSING }, [])
    | none => none
  | .close i code reason =>
    match c.sockets.get? i with
    | some .CLOSED => none
    | some _ => some (onclose code reason { c with sockets := c.sockets.set i .CLOSED })
    | none => none
  | .timer k ctorThrows =>
    if k < c.timers.length then
      some (connect ctorThrows { c with timers := c.timers.eraseIdx k })
    else none
  | .user u => some (c, sendMessage u.nameValue u.textValue u.now c.wsReadyState)

/-- Deliver a list of events in order, collecting the effects of each. -/
def run (c : Conn) : List (Event SendInput) → Option (Conn × List (List Effect))
  | [] => some (c, [])
  | e :: es =>
    match step c e with
    | none => none
    | some (c1, eff) =>
      match run c1 es with
      | none => none
      | some (c2, effs) => some (c2, eff :: effs)

/-- The page after the script has run: `connect()` at page load. -/
def pageLoad (ctorThrows : Bool) : Conn :=
  (connect ctorThrows Conn.initial).1

/-- States reachable from page load by events. -/
inductive Reachable : Conn → Prop where
  | load (ctorThrows : Bool) : Reachable (pageLoad ctorThrows)
  | next {c c1 : Conn} {eff : List Effect} (e : Event SendInput) :
      Reachable c → step c e = some (c1, eff) → Reachable c1

end Chat

/-! ## dashboard.js -/

namespace Dashboard

/-- One element of a series: the object literal pushed by `updateMetric`. -/
structure Sample where
  value : JSVal
  timestamp : JSVal
  deriving DecidableEq

/-- The own keys of the `chartData` object literal. -/
inductive SeriesKey where
  | temperature
  | stock
  | cpu
  deriving DecidableEq

/-- The `chartData` object: three arrays under fixed keys.  No code adds or
removes a key. -/
structure ChartData where
  temperature : List Sample
  stock : List Sample
  cpu : List Sample
  deriving DecidableEq

/-- The `chartData` literal of the script. -/
def chartData : ChartData :=
  { temperature := [], stock := [], cpu := [] }

def MAX_CHART_POINTS : Nat := 60

def ChartData.get (cd : ChartData) : SeriesKey → List Sample
  | .temperature => cd.temperature
  | .stock => cd.stock
  | .cpu => cd.cpu

def ChartData.set (cd : ChartData) (k : SeriesKey) (xs : List Sample) : ChartData :=
  match k with
  | .temperature => { cd with temperature := xs }
  | .stock => { cd with stock := xs }
  | .cpu => { cd with cpu := xs }

/-- Property names every object literal inherits from `Object.prototype`. -/
def objectPrototypeNames : List String :=
  ["constructor", "hasOwnProperty", "isPrototypeOf", "propertyIsEnumerable", "toLocaleString",
    "toString", "valueOf", "__proto__", "__defineGetter__", "__defineSetter__",
    "__lookupGetter__", "__lookupSetter__"]

/-- What the property read `chartData[metric]` finds. -/
inductive Property where
  | own (k : SeriesKey)
  | inherited
  | missing
  deriving DecidableEq

/-- The property read `chartData[metric]`.  A string names an own key, a
property inherited from `Object.prototype` (a function or object, truthy, and
without a `push` method), or nothing.  The string form of `undefined`, `null`,
a boolean or a number is none of these names, so such a key finds nothing. -/
def lookup : JSVal → Property
  | .str s =>
    if s = "temperature" then .own .temperature
    else if s = "stock" then .own .stock
    else if s = "cpu" then .own .cpu
    else if s ∈ objectPrototypeNames then .inherited
    else .missing
  | _ => .missing

/-- The part of the document `updateMetric` branches on: for which metric
`document.getElementById` finds the element `value-<metric>`. -/
structure Dom where
  hasValueElement : JSVal → Bool

/-- `updateMetric(metric, value, timestamp)`: the chart data afterwards and how
the call completes.  With a value element present, `value.toFixed(2)` throws a
TypeError unless `value` is a number.  `chartData[metric]` then decides: an own
array gets the sample pushed and, when longer than `MAX_CHART_POINTS`, its
first element shifted out; an inherited property passes the `if` and the call
of its missing `push` throws a TypeError; otherwise nothing is stored.
`formatTime`, the 200 ms animation timer and `drawChart` only touch the DOM. -/
def updateMetric (dom : Dom) (cd : ChartData) (metric value timestamp : JSVal) :
    ChartData × Completion :=
  if dom.hasValueElement metric && !value.isNumber then
    (cd, .thrown "TypeError")
  else
    match lookup metric with
    | .own k =>
      let pushed := cd.get k ++ [{ value := value, timestamp := timestamp }]
      if pushed.length > MAX_CHART_POINTS then
        (cd.set k pushed.tail, .normal)
      else
        (cd.set k pushed, .normal)
    | .inherited => (cd, .thrown "TypeError")
    | .missing => (cd, .normal)

/-- `handleMessage(data)` of dashboard.js: chart data afterwards, the calls
made, and how it completes. -/
def handleMessage (dom : Dom) (cd : ChartData) (data : Decoded) :
    ChartData × List Effect × Completion :=
  match data with
  | .null => (cd, [], .thrown "TypeError")
  | _ =>
    if data.read "type" = .str "metric" then
      let r := updateMetric dom cd (data.read "metric") (data.read "value") (data.read "ts")
      (r.1, [.updateMetric (data.read "metric") (data.read "value") (data.read "ts")], r.2)
    else if data.read "type" = .str "system" then
      (cd, [.consoleLog "[System]" [data.read "text"]], .normal)
    else
      (cd, [.consoleWarn "[WS] Unknown message type:" [data.read "type"]], .normal)

/-- The `checked` flags of the three checkboxes. -/
structure Checkboxes where
  temperature : Bool
  stock : Bool
  cpu : Bool
  deriving DecidableEq

def Checkboxes.set (b : Checkboxes) (k : SeriesKey) (checked : Bool) : Checkboxes :=
  match k with
  | .temperature => { b with temperature := checked }
  | .stock => { b with stock := checked }
  | .cpu => { b with cpu := checked }

/-- The array `subscribedMetrics`, in the order of `Object.entries(checkboxes)`. -/
def subscribedMetrics (b : Checkboxes) : List String :=
  (if b.temperature then ["temperature"] else []) ++
  (if b.stock then ["stock"] else []) ++
  (if b.cpu then ["cpu"] else [])

/-- `sendSubscription()`: returns `undefined` on every path; what it did is the
list of calls. -/
def sendSubscription (ws : Option ReadyState) (b : Checkboxes) : List Effect :=
  if notOpen ws then
    []
  else
    [.wsSend (.subscribe (subscribedMetrics b)), .consoleLog "[WS] Sent subscription:" [],
      .updateMetricCards]

/-- The variables of the dashboard page. -/
structure Page where
  conn : Conn
  chartData : ChartData
  checkboxes : Checkboxes
  deriving DecidableEq

/-- `connect()` of dashboard.js. -/
def connect (ctorThrows : Bool) (p : Page) : Page × List Effect :=
  let pre : List Effect :=
    [.consoleLog "[WS] Connecting to:" [.str "ws://localhost:8765/ws/dashboard"],
      .updateStatus "connecting" "Đang kết nối..."]
  if ctorThrows then
    (p, pre ++ [.consoleError "[WS] Failed to create WebSocket:",
      .updateStatus "disconnected" "Không thể kết nối"])
  else
    ({ p with conn := { p.conn with
          sockets := p.conn.sockets ++ [.CONNECTING], ws := some p.conn.sockets.length } },
      pre ++ [.newWebSocket "ws://localhost:8765/ws/dashboard"])

/-- Body of `ws.onopen`. -/
def onopen (p : Page) : Page × List Effect :=
  let p1 : Page := { p with conn := { p.conn with reconnectAttempts := 0 } }
  (p1, [.consoleLog "[WS] Connected!" [],
      .updateStatus "connected" "Đã kết nối - Đang nhận dữ liệu realtime"] ++
    sendSubscription p1.conn.wsReadyState p1.checkboxes)

/-- Body of `ws.onmessage`. -/
def onmessage (dom : Dom) (payload : Option Decoded) (p : Page) : Page × List Effect :=
  match payload with
  | none => (p, [.consoleError "[WS] Failed to parse message:"])
  | some data =>
    match handleMessage dom p.chartData data with
    | (cd, calls, .normal) => ({ p with chartData := cd }, calls)
    | (cd, calls, .thrown _) =>
      ({ p with chartData := cd }, calls ++ [.consoleError "[WS] Failed to parse message:"])

/-- Body of `ws.onerror`. -/
def onerror (p : Page) : Page × List Effect :=
  (p, [.consoleError "[WS] Error:", .updateStatus "disconnected" "Lỗi kết nối"])

/-- Body of `ws.onclose` for a close event with the given code and reason. -/
def onclose (code : Nat) (reason : String) (p : Page) : Page × List Effect :=
  let pre : List Effect :=
    [.consoleLog "[WS] Closed:" [.num code, .str reason],
      .updateStatus "disconnected" "Mất kết nối"]
  if p.conn.reconnectAttempts < MAX_RECONNECT_ATTEMPTS then
    let delay := BASE_RECONNECT_DELAY * 2 ^ p.conn.reconnectAttempts
    let attempts := p.conn.reconnectAttempts + 1
    ({ p with conn := { p.conn with
          reconnectAttempts := attempts, timers := p.conn.timers ++ [delay] } },
      pre ++ [.consoleLog (reconnectLogText delay attempts) [],
        .updateStatus "connecting" (reconnectStatusText delay),
        .setTimeoutConnect delay])
  else
    (p, pre ++ [.updateStatus "disconnected" "Không thể kết nối. Vui lòng tải lại trang."])

/-- A `change` event of one checkbox: which one, and its new `checked`. -/
structure CheckboxChange where
  key : SeriesKey
  checked : Bool

/-- Replace the socket list of a page. -/
def Page.withSockets (p : Page) (sockets : List ReadyState) : Page :=
  { p with conn := { p.conn with sockets := sockets } }

/-- One event delivered to the dashboard page; `none` when the browser cannot
deliver it in this state. -/
def step (dom : Dom) (p : Page) : Event CheckboxChange → Option (Page × List Effect)
  | .opened i =>
    if p.conn.sockets.get? i = some .CONNECTING then
      some (onopen (p.withSockets (p.conn.sockets.set i .OPEN)))
    else none
  | .message i payload =>
    if p.conn.sockets.get? i = some .OPEN then some (onmessage dom payload p) else none
  | .error i =>
    match p.conn.sockets.get? i with
    | some .CLOSED => none
    | some _ => some (onerror p)
    | none => none
  | .closing i =>
    match p.conn.sockets.get? i with
    | some .CLOSED => none
    | some _ => some (p.withSockets (p.conn.sockets.set i .CLOSING), [])
    | none => none
  | .close i code reason =>
    match p.conn.sockets.get? i with
    | some .CLOSED => none
    | some _ => some (onclose code reason (p.withSockets (p.conn.sockets.set i .CLOSED)))
    | none => none
  | .timer k ctorThrows =>
    if k < p.conn.timers.length then
      some (connect ctorThrows { p with conn := { p.conn with timers := p.conn.timers.eraseIdx k } })
    else none
  | .user u =>
    let b := p.checkboxes.set u.key u.checked
    some ({ p with checkboxes := b },
      .consoleLog "[UI] Checkbox changed" [] :: sendSubscription p.conn.wsReadyState b)

/-- Deliver a list of events in order, collecting the effects of each. -/
def run (dom : Dom) (p : Page) :
    List (Event CheckboxChange) → Option (Page × List (List Effect))
  | [] => some (p, [])
  | e :: es =>
    match step dom p e with
    | none => none
    | some (p1, eff) =>
      match run dom p1 es with
      | none => none
      | some (p2, effs) => some (p2, eff :: effs)

/-- The page after the script has run: `connect()` at page load, with the
checkboxes as the document has them. -/
def pageLoad (ctorThrows : Bool) (b : Checkboxes) : Page :=
  (connect ctorThrows { conn := Conn.initial, chartData := chartData, checkboxes := b }).1

/-- States reachable from page load by events. -/
inductive Reachable (dom : Dom) : Page → Prop where
  | load (ctorThrows : Bool) (b : Checkboxes) : Reachable dom (pageLoad ctorThrows b)
  | next {p p1 : Page} {eff : List Effect} (e : Event CheckboxChange) :
      Reachable dom p → step dom p e = some (p1, eff) → Reachable dom p1

/-- Record a list of samples under one metric name, one `updateMetric` call
each, in order; stops at the first call that throws. -/
def recordAll (dom : Dom) (metric : JSVal) (cd : ChartData) :
    List Sample → ChartData × Completion
  | [] => (cd, .normal)
  | s :: rest =>
    match updateMetric dom cd metric s.value s.timestamp with
    | (cd1, .normal) => recordAll dom metric cd1 rest
    | (cd1, .thrown e) => (cd1, .thrown e)

end Dashboard

/-! ## Scenarios -/

/-- The events of `n` consecutive failed opens, none of them reaching `open`:
socket `j` closes, the reconnect timer fires and creates socket `j + 1`, which
closes, and so on; `closes` gives the code and reason of each close event. -/
def failedOpens {υ : Type} (j : Nat) : List (Nat × String) → List (Event υ)
  | [] => []
  | [cr] => [.close j cr.1 cr.2]
  | cr :: rest => .close j cr.1 cr.2 :: .timer 0 false :: failedOpens (j + 1) rest

/-- A document holding the value elements of the three metric cards. -/
def Dashboard.cardsDom : Dashboard.Dom :=
  { hasValueElement := fun m =>
      decide (m = .str "temperature" ∨ m = .str "stock" ∨ m = .str "cpu") }

/-! ## Backoff -/

theorem Chat.chat_onclose_retry (code : Nat) (reason : String) (c : Conn)
    (h : c.reconnectAttempts < MAX_RECONNECT_ATTEMPTS) :
    (Chat.onclose code reason c).1 =
        { c with reconnectAttempts := c.reconnectAttempts + 1,
                 timers := c.timers ++ [BASE_RECONNECT_DELAY * 2 ^ c.reconnectAttempts] } ∧
      scheduledDelays (Chat.onclose code reason c).2 =
        [BASE_RECONNECT_DELAY * 2 ^ c.reconnectAttempts] := by
  simp [Chat.onclose, h, scheduledDelays]

theorem Chat.chat_onclose_stop (code : Nat) (reason : String) (c : Conn)
    (h : ¬ c.reconnectAttempts < MAX_RECONNECT_ATTEMPTS) :
    (Chat.onclose code reason c).1 = c ∧ scheduledDelays (Chat.onclose code reason c).2 = [] := by
  simp [Chat.onclose, h, scheduledDelays]

theorem Dashboard.dash_onclose_retry (code : Nat) (reason : String) (p : Dashboard.Page)
    (h : p.conn.reconnectAttempts < MAX_RECONNECT_ATTEMPTS) :
    (Dashboard.onclose code reason p).1 =
        { p with conn := { p.conn with
            reconnectAttempts := p.conn.reconnectAttempts + 1,
            timers := p.conn.timers ++ [BASE_RECONNECT_DELAY * 2 ^ p.conn.reconnectAttempts] } } ∧
      scheduledDelays (Dashboard.onclose code reason p).2 =
        [BASE_RECONNECT_DELAY * 2 ^ p.conn.reconnectAttempts] := by
  simp [Dashboard.onclose, h, scheduledDelays]

theorem Dashboard.dash_onclose_stop (code : Nat) (reason : String) (p : Dashboard.Page)
    (h : ¬ p.conn.reconnectAttempts < MAX_RECONNECT_ATTEMPTS) :
    (Dashboard.onclose code reason p).1 = p ∧
      scheduledDelays (Dashboard.onclose code reason p).2 = [] := by
  simp [Dashboard.onclose, h, scheduledDelays]

/-- C1: for every attempt count `a < MAX_RECONNECT_ATTEMPTS`, the close handler
run with `reconnectAttempts = a` schedules exactly one reconnect, with delay
`BASE_RECONNECT_DELAY * 2 ^ a` (from `a` before the increment), and leaves
`reconnectAttempts = a + 1`; a larger attempt count below the limit gets a
strictly larger delay; three consecutive closes from page load schedule 1000,
2000, 4000 in that order.  In chat.js and in dashboard.js. -/
theorem close_schedules_exponential_backoff (a : Nat) (ha : a < MAX_RECONNECT_ATTEMPTS) :
    (∀ (code : Nat) (reason : String) (c : Conn), c.reconnectAttempts = a →
      scheduledDelays (Chat.onclose code reason c).2 = [1000 * 2 ^ a] ∧
      (Chat.onclose code reason c).1.timers = c.timers ++ [1000 * 2 ^ a] ∧
      (Chat.onclose code reason c).1.reconnectAttempts = a + 1) ∧
    (∀ (code : Nat) (reason : String) (p : Dashboard.Page), p.conn.reconnectAttempts = a →
      scheduledDelays (Dashboard.onclose code reason p).2 = [1000 * 2 ^ a] ∧
      (Dashboard.onclose code reason p).1.conn.timers = p.conn.timers ++ [1000 * 2 ^ a] ∧
      (Dashboard.onclose code reason p).1.conn.reconnectAttempts = a + 1) ∧
    (∀ (b : Nat) (code code1 : Nat) (reason reason1 : String) (c c1 : Conn)
        (p p1 : Dashboard.Page),
      a < b → b < MAX_RECONNECT_ATTEMPTS →
      c.reconnectAttempts = a → c1.reconnectAttempts = b →
      p.conn.reconnectAttempts = a → p1.conn.reconnectAttempts = b →
      (∀ d ∈ scheduledDelays (Chat.onclose code reason c).2,
        ∀ d1 ∈ scheduledDelays (Chat.onclose code1 reason1 c1).2, d < d1) ∧
      (∀ d ∈ scheduledDelays (Dashboard.onclose code reason p).2,
        ∀ d1 ∈ scheduledDelays (Dashboard.onclose code1 reason1 p1).2, d < d1)) ∧
    (Chat.run (Chat.pageLoad false)
        (failedOpens 0 [(1006, ""), (1006, ""), (1006, "")])).map
      (fun r => r.2.map scheduledDelays) = some [[1000], [], [2000], [], [4000]] ∧
    (Dashboard.run Dashboard.cardsDom (Dashboard.pageLoad false ⟨true, true, true⟩)
        (failedOpens 0 [(1006, ""), (1006, ""), (1006, "")])).map
      (fun r => r.2.map scheduledDelays) = some [[1000], [], [2000], [], [4000]] := by
  refine ⟨?_, ?_, ?_, ?_, ?_⟩
  · intro code reason c hc
    have h := Chat.chat_onclose_retry code reason c (by rw [hc]; exact ha)
    rw [h.1, h.2, hc]
    simp [BASE_RECONNECT_DELAY]
  · intro code reason p hp
    have h := Dashboard.dash_onclose_retry code reason p (by rw [hp]; exact ha)
    rw [h.1, h.2, hp]
    simp [BASE_RECONNECT_DELAY]
  · intro b code code1 reason reason1 c c1 p p1 hab hb hc hc1 hp hp1
    have h := Chat.chat_onclose_retry code reason c (by rw [hc]; exact ha)
    have h1 := Chat.chat_onclose_retry code1 reason1 c1 (by rw [hc1]; exact hb)
    have g := Dashboard.dash_onclose_retry code reason p (by rw [hp]; exact ha)
    have g1 := Dashboard.dash_onclose_retry code1 reason1 p1 (by rw [hp1]; exact hb)
    have hpow : 2 ^ a < 2 ^ b := Nat.pow_lt_pow_right (by decide) hab
    rw [h.2, h1.2, g.2, g1.2, hc, hc1, hp, hp1]
    simp [BASE_RECONNECT_DELAY, hpow]
  · decide
  · decide

theorem close_schedules_exponential_backoff_witness :
    (2 < MAX_RECONNECT_ATTEMPTS) ∧
    scheduledDelays (Chat.onclose 1006 "" ⟨2, [.CLOSED], some 0, []⟩).2 = [1000 * 2 ^ 2] :=
  ⟨by decide,
    ((close_schedules_exponential_backoff 2 (by decide)).1 1006 "" ⟨2, [.CLOSED], some 0, []⟩
      rfl).1⟩

/-! ## The attempt counter -/

/-- C5: whatever `reconnectAttempts` was, the open handler leaves it at 0, and
the message, error and close handlers (and the `connect` a timer runs) never
lower it.  In chat.js and in dashboard.js. -/
theorem open_resets_attempts_others_never_lower :
    (∀ c : Conn, (Chat.onopen c).1.reconnectAttempts = 0) ∧
    (∀ p : Dashboard.Page, (Dashboard.onopen p).1.conn.reconnectAttempts = 0) ∧
    (∀ (c : Conn) (payload : Option Decoded) (code : Nat) (reason : String) (t : Bool),
      c.reconnectAttempts ≤ (Chat.onmessage payload c).1.reconnectAttempts ∧
      c.reconnectAttempts ≤ (Chat.onerror c).1.reconnectAttempts ∧
      c.reconnectAttempts ≤ (Chat.onclose code reason c).1.reconnectAttempts ∧
      c.reconnectAttempts ≤ (Chat.connect t c).1.reconnectAttempts) ∧
    (∀ (dom : Dashboard.Dom) (p : Dashboard.Page) (payload : Option Decoded) (code : Nat)
        (reason : String) (t : Bool),
      p.conn.reconnectAttempts ≤ (Dashboard.onmessage dom payload p).1.conn.reconnectAttempts ∧
      p.conn.reconnectAttempts ≤ (Dashboard.onerror p).1.conn.reconnectAttempts ∧
      p.conn.reconnectAttempts ≤ (Dashboard.onclose code reason p).1.conn.reconnectAttempts ∧
      p.conn.reconnectAttempts ≤ (Dashboard.connect t p).1.conn.reconnectAttempts) := by
  refine ⟨fun c => rfl, fun p => rfl, ?_, ?_⟩
  · intro c payload code reason t
    refine ⟨?_, le_refl _, ?_, ?_⟩
    · cases payload with
      | none => exact le_refl _
      | some data =>
        simp only [Chat.onmessage]
        split <;> exact le_refl _
    · by_cases h : c.reconnectAttempts < MAX_RECONNECT_ATTEMPTS
      · rw [(Chat.chat_onclose_retry code reason c h).1]
        exact Nat.le_succ _
      · rw [(Chat.chat_onclose_stop code reason c h).1]
    · cases t <;> exact le_refl _
  · intro dom p payload code reason t
    refine ⟨?_, le_refl _, ?_, ?_⟩
    · cases payload with
      | none => exact le_refl _
      | some data =>
        simp only [Dashboard.onmessage]
        split <;> exact le_refl _
    · by_cases h : p.conn.reconnectAttempts < MAX_RECONNECT_ATTEMPTS
      · rw [(Dashboard.dash_onclose_retry code reason p h).1]
        exact Nat.le_succ _
      · rw [(Dashboard.dash_onclose_stop code reason p h).1]
    · cases t <;> exact le_refl _

/-- C10: for every state and any two close events, whatever their codes and
reasons, the close handler leaves the same variables (the same
`reconnectAttempts`, the same pending timers) and schedules the same delays:
the retry-or-stop decision depends on the attempt counter only.  In chat.js
and in dashboard.js. -/
theorem close_policy_ignores_code_and_reason :
    (∀ (c : Conn) (code code1 : Nat) (reason reason1 : String),
      (Chat.onclose code reason c).1 = (Chat.onclose code1 reason1 c).1 ∧
      scheduledDelays (Chat.onclose code reason c).2 =
        scheduledDelays (Chat.onclose code1 reason1 c).2) ∧
    (∀ (p : Dashboard.Page) (code code1 : Nat) (reason reason1 : String),
      (Dashboard.onclose code reason p).1 = (Dashboard.onclose code1 reason1 p).1 ∧
      scheduledDelays (Dashboard.onclose code reason p).2 =
        scheduledDelays (Dashboard.onclose code1 reason1 p).2) := by
  constructor
  · intro c code code1 reason reason1
    by_cases h : c.reconnectAttempts < MAX_RECONNECT_ATTEMPTS
    · rw [(Chat.chat_onclose_retry code reason c h).1, (Chat.chat_onclose_retry code1 reason1 c h).1,
        (Chat.chat_onclose_retry code reason c h).2, (Chat.chat_onclose_retry code1 reason1 c h).2]
      exact ⟨rfl, rfl⟩
    · rw [(Chat.chat_onclose_stop code reason c h).1, (Chat.chat_onclose_stop code1 reason1 c h).1,
        (Chat.chat_onclose_stop code reason c h).2, (Chat.chat_onclose_stop code1 reason1 c h).2]
      exact ⟨rfl, rfl⟩
  · intro p code code1 reason reason1
    by_cases h : p.conn.reconnectAttempts < MAX_RECONNECT_ATTEMPTS
    · rw [(Dashboard.dash_onclose_retry code reason p h).1,
        (Dashboard.dash_onclose_retry code1 reason1 p h).1,
        (Dashboard.dash_onclose_retry code reason p h).2,
        (Dashboard.dash_onclose_retry code1 reason1 p h).2]
      exact ⟨rfl, rfl⟩
    · rw [(Dashboard.dash_onclose_stop code reason p h).1,
        (Dashboard.dash_onclose_stop code1 reason1 p h).1,
        (Dashboard.dash_onclose_stop code reason p h).2,
        (Dashboard.dash_onclose_stop code1 reason1 p h).2]
      exact ⟨rfl, rfl⟩

/-! ## Exhaustion -/

theorem closed_of_liveSockets_eq_zero (c : Conn) (h : c.liveSockets = 0) (i : Nat)
    (r : ReadyState) (hr : c.sockets.get? i = some r) : r = .CLOSED := by
  have hnil : c.sockets.filter (fun r => decide (r ≠ .CLOSED)) = [] :=
    List.length_eq_zero.mp h
  have hall := List.filter_eq_nil_iff.mp hnil r (List.get?_mem hr)
  simpa using hall

theorem Chat.sendMessage_schedules_nothing (n t : String) (now : Nat) (ws : Option ReadyState) :
    scheduledDelays (Chat.sendMessage n t now ws) = [] := by
  simp only [Chat.sendMessage]
  split_ifs <;> rfl

theorem Dashboard.sendSubscription_schedules_nothing (ws : Option ReadyState)
    (b : Dashboard.Checkboxes) : scheduledDelays (Dashboard.sendSubscription ws b) = [] := by
  simp only [Dashboard.sendSubscription]
  split_ifs <;> rfl

/-- With every socket closed and no timer pending, only user events can be
delivered to the chat page; they change nothing and schedule nothing. -/
theorem Chat.chat_step_of_quiet (c c1 : Conn) (eff : List Effect) (e : Event Chat.SendInput)
    (hl : c.liveSockets = 0) (ht : c.timers = [])
    (hs : Chat.step c e = some (c1, eff)) : c1 = c ∧ scheduledDelays eff = [] := by
  have hcl := closed_of_liveSockets_eq_zero c hl
  cases e with
  | opened i =>
    simp only [Chat.step] at hs
    split_ifs at hs with h
    exact absurd (hcl i _ h) (by decide)
  | message i payload =>
    simp only [Chat.step] at hs
    split_ifs at hs with h
    exact absurd (hcl i _ h) (by decide)
  | error i =>
    simp only [Chat.step] at hs
    split at hs
    · exact absurd hs (by simp)
    · rename_i r hne hr
      exact absurd (hcl i _ hr) hne
    · exact absurd hs (by simp)
  | closing i =>
    simp only [Chat.step] at hs
    split at hs
    · exact absurd hs (by simp)
    · rename_i r hne hr
      exact absurd (hcl i _ hr) hne
    · exact absurd hs (by simp)
  | close i code reason =>
    simp only [Chat.step] at hs
    split at hs
    · exact absurd hs (by simp)
    · rename_i r hne hr
      exact absurd (hcl i _ hr) hne
    · exact absurd hs (by simp)
  | timer k t =>
    simp [Chat.step, ht] at hs
  | user u =>
    simp only [Chat.step, Option.some.injEq, Prod.mk.injEq] at hs
    refine ⟨hs.1.symm, ?_⟩
    rw [← hs.2]
    exact Chat.sendMessage_schedules_nothing _ _ _ _

theorem Chat.chat_run_of_quiet (es : List (Event Chat.SendInput)) :
    ∀ (c c1 : Conn) (effs : List (List Effect)), c.liveSockets = 0 → c.timers = [] →
      Chat.run c es = some (c1, effs) → ∀ eff ∈ effs, scheduledDelays eff = [] := by
  induction es with
  | nil =>
    intro c c1 effs _ _ hr
    simp only [Chat.run, Option.some.injEq, Prod.mk.injEq] at hr
    intro eff hmem
    rw [← hr.2] at hmem
    exact absurd hmem (List.not_mem_nil _)
  | cons e es ih =>
    intro c c1 effs hl ht hr
    simp only [Chat.run] at hr
    cases hs : Chat.step c e with
    | none => simp [hs] at hr
    | some r =>
      obtain ⟨c2, eff⟩ := r
      have hq := Chat.chat_step_of_quiet c c2 eff e hl ht hs
      rw [hs] at hr
      cases hrest : Chat.run c2 es with
      | none => simp [hrest] at hr
      | some r2 =>
        obtain ⟨c3, effs2⟩ := r2
        simp [hrest] at hr
        have hrec := ih c2 c3 effs2 (by rw [hq.1]; exact hl) (by rw [hq.1]; exact ht) hrest
        intro eff1 hmem
        rw [← hr.2] at hmem
        rcases List.mem_cons.mp hmem with h | h
        · rw [h]; exact hq.2
        · exact hrec eff1 h

/-- With every socket closed and no timer pending, only checkbox changes can be
delivered to the dashboard page; they leave the connection variables alone and
schedule nothing. -/
theorem Dashboard.dash_step_of_quiet (dom : Dashboard.Dom) (p p1 : Dashboard.Page)
    (eff : List Effect) (e : Event Dashboard.CheckboxChange)
    (hl : p.conn.liveSockets = 0) (ht : p.conn.timers = [])
    (hs : Dashboard.step dom p e = some (p1, eff)) :
    p1.conn = p.conn ∧ scheduledDelays eff = [] := by
  have hcl := closed_of_liveSockets_eq_zero p.conn hl
  cases e with
  | opened i =>
    simp only [Dashboard.step] at hs
    split_ifs at hs with h
    exact absurd (hcl i _ h) (by decide)
  | message i payload =>
    simp only [Dashboard.step] at hs
    split_ifs at hs with h
    exact absurd (hcl i _ h) (by decide)
  | error i =>
    simp only [Dashboard.step] at hs
    split at hs
    · exact absurd hs (by simp)
    · rename_i r hne hr
      exact absurd (hcl i _ hr) hne
    · exact absurd hs (by simp)
  | closing i =>
    simp only [Dashboard.step] at hs
    split at hs
    · exact absurd hs (by simp)
    · rename_i r hne hr
      exact absurd (hcl i _ hr) hne
    · exact absurd hs (by simp)
  | close i code reason =>
    simp only [Dashboard.step] at hs
    split at hs
    · exact absurd hs (by simp)
    · rename_i r hne hr
      exact absurd (hcl i _ hr) hne
    · exact absurd hs (by simp)
  | timer k t =>
    simp [Dashboard.step, ht] at hs
  | user u =>
    simp only [Dashboard.step, Option.some.injEq, Prod.mk.injEq] at hs
    refine ⟨by rw [← hs.1], ?_⟩
    rw [← hs.2]
    simp only [scheduledDelays]
    exact Dashboard.sendSubscription_schedules_nothing _ _

theorem Dashboard.dash_run_of_quiet (dom : Dashboard.Dom) (es : List (Event Dashboard.CheckboxChange)) :
    ∀ (p p1 : Dashboard.Page) (effs : List (List Effect)),
      p.conn.liveSockets = 0 → p.conn.timers = [] →
      Dashboard.run dom p es = some (p1, effs) → ∀ eff ∈ effs, scheduledDelays eff = [] := by
  induction es with
  | nil =>
    intro p p1 effs _ _ hr
    simp only [Dashboard.run, Option.some.injEq, Prod.mk.injEq] at hr
    intro eff hmem
    rw [← hr.2] at hmem
    exact absurd hmem (List.not_mem_nil _)
  | cons e es ih =>
    intro p p1 effs hl ht hr
    simp only [Dashboard.run] at hr
    cases hs : Dashboard.step dom p e with
    | none => simp [hs] at hr
    | some r =>
      obtain ⟨p2, eff⟩ := r
      have hq := Dashboard.dash_step_of_quiet dom p p2 eff e hl ht hs
      rw [hs] at hr
      cases hrest : Dashboard.run dom p2 es with
      | none => simp [hrest] at hr
      | some r2 =>
        obtain ⟨p3, effs2⟩ := r2
        simp [hrest] at hr
        have hrec := ih p2 p3 effs2 (by rw [hq.1]; exact hl) (by rw [hq.1]; exact ht) hrest
        intro eff1 hmem
        rw [← hr.2] at hmem
        rcases List.mem_cons.mp hmem with h | h
        · rw [h]; exact hq.2
        · exact hrec eff1 h

/-- C2 as stated fails: after five consecutive failed opens from page load the
fifth close handler has scheduled a further `connect` (delay 16000) and that
timer is pending, in chat.js and in dashboard.js. -/
theorem five_failed_opens_leave_a_reconnect_pending :
    (Chat.run (Chat.pageLoad false)
        (failedOpens 0 [(1006, ""), (1006, ""), (1006, ""), (1006, ""), (1006, "")])).map
      (fun r => (r.1.reconnectAttempts, r.1.timers, r.2.getLast?.map scheduledDelays)) =
      some (5, [16000], some [16000]) ∧
    (Dashboard.run Dashboard.cardsDom (Dashboard.pageLoad false ⟨true, true, true⟩)
        (failedOpens 0 [(1006, ""), (1006, ""), (1006, ""), (1006, ""), (1006, "")])).map
      (fun r => (r.1.conn.reconnectAttempts, r.1.conn.timers,
        r.2.getLast?.map scheduledDelays)) =
      some (5, [16000], some [16000]) := by
  constructor <;> decide

/-- C2 amended: after `MAX_RECONNECT_ATTEMPTS + 1` consecutive failed opens from
page load (the first connection and five reconnects), whatever the close codes
and reasons, the run exists, the last close handler schedules nothing and
reports that reconnecting has stopped, the page is left with
`reconnectAttempts = 5`, no pending timer and no socket that has not closed,
and no sequence of later events schedules a `connect`.  In chat.js and in
dashboard.js. -/
theorem six_failed_opens_exhaust (closes : List (Nat × String))
    (hlen : closes.length = MAX_RECONNECT_ATTEMPTS + 1) :
    (∃ (c : Conn) (effs : List (List Effect)),
      Chat.run (Chat.pageLoad false) (failedOpens 0 closes) = some (c, effs) ∧
      c.reconnectAttempts = MAX_RECONNECT_ATTEMPTS ∧ c.timers = [] ∧ c.liveSockets = 0 ∧
      effs.getLast?.map scheduledDelays = some [] ∧
      (∃ last, effs.getLast? = some last ∧
        Effect.updateStatus "disconnected" "Không thể kết nối. Vui lòng tải lại trang." ∈ last) ∧
      (∀ (es : List (Event Chat.SendInput)) (c1 : Conn) (effs1 : List (List Effect)),
        Chat.run c es = some (c1, effs1) → ∀ eff ∈ effs1, scheduledDelays eff = [])) ∧
    (∀ (dom : Dashboard.Dom) (b : Dashboard.Checkboxes),
      ∃ (p : Dashboard.Page) (effs : List (List Effect)),
      Dashboard.run dom (Dashboard.pageLoad false b) (failedOpens 0 closes) = some (p, effs) ∧
      p.conn.reconnectAttempts = MAX_RECONNECT_ATTEMPTS ∧ p.conn.timers = [] ∧
      p.conn.liveSockets = 0 ∧
      effs.getLast?.map scheduledDelays = some [] ∧
      (∃ last, effs.getLast? = some last ∧
        Effect.updateStatus "disconnected" "Không thể kết nối. Vui lòng tải lại trang." ∈ last) ∧
      (∀ (es : List (Event Dashboard.CheckboxChange)) (p1 : Dashboard.Page)
          (effs1 : List (List Effect)),
        Dashboard.run dom p es = some (p1, effs1) → ∀ eff ∈ effs1, scheduledDelays eff = [])) := by
  obtain ⟨x1, x2, x3, x4, x5, x6, rfl⟩ : ∃ x1 x2 x3 x4 x5 x6, closes = [x1, x2, x3, x4, x5, x6] := by
    match closes, hlen with
    | [x1, x2, x3, x4, x5, x6], _ => exact ⟨x1, x2, x3, x4, x5, x6, rfl⟩
  constructor
  · generalize hrun : Chat.run (Chat.pageLoad false) (failedOpens 0 [x1, x2, x3, x4, x5, x6]) = r
    simp [failedOpens, Chat.run, Chat.step, Chat.pageLoad, Chat.connect, Chat.onclose,
      Conn.initial, MAX_RECONNECT_ATTEMPTS, BASE_RECONNECT_DELAY] at hrun
    subst hrun
    refine ⟨_, _, rfl, rfl, rfl, rfl, rfl, ⟨_, rfl, ?_⟩, ?_⟩
    · simp
    · intro es c1 effs1 hr
      exact Chat.chat_run_of_quiet es _ c1 effs1 (by rfl) (by rfl) hr
  · intro dom b
    generalize hrun : Dashboard.run dom (Dashboard.pageLoad false b)
      (failedOpens 0 [x1, x2, x3, x4, x5, x6]) = r
    simp [failedOpens, Dashboard.run, Dashboard.step, Dashboard.pageLoad, Dashboard.connect,
      Dashboard.onclose, Dashboard.Page.withSockets, Conn.initial, MAX_RECONNECT_ATTEMPTS,
      BASE_RECONNECT_DELAY] at hrun
    subst hrun
    refine ⟨_, _, rfl, rfl, rfl, rfl, rfl, ⟨_, rfl, ?_⟩, ?_⟩
    · simp
    · intro es p1 effs1 hr
      exact Dashboard.dash_run_of_quiet dom es _ p1 effs1 (by rfl) (by rfl) hr

theorem six_failed_opens_exhaust_witness :
    ([(1006, ""), (1000, "bye"), (1006, ""), (1001, ""), (1006, ""), (1006, "")] :
        List (Nat × String)).length = MAX_RECONNECT_ATTEMPTS + 1 ∧
    ∃ (c : Conn) (effs : List (List Effect)),
      Chat.run (Chat.pageLoad false)
        (failedOpens 0 [(1006, ""), (1000, "bye"), (1006, ""), (1001, ""), (1006, ""),
          (1006, "")]) = some (c, effs) ∧
      c.reconnectAttempts = MAX_RECONNECT_ATTEMPTS ∧ c.timers = [] ∧ c.liveSockets = 0 :=
  ⟨by decide,
    by
      obtain ⟨c, effs, h1, h2, h3, h4, _⟩ :=
        (six_failed_opens_exhaust
          [(1006, ""), (1000, "bye"), (1006, ""), (1001, ""), (1006, ""), (1006, "")]
          (by decide)).1
      exact ⟨c, effs, h1, h2, h3, h4⟩⟩

/-! ## At most one active transport handle -/

theorem live_append_connecting (l : List ReadyState) :
    ((l ++ [ReadyState.CONNECTING]).filter fun r => decide (r ≠ .CLOSED)).length =
      (l.filter fun r => decide (r ≠ .CLOSED)).length + 1 := by
  simp [List.filter_append]

theorem live_set_closed (l : List ReadyState) :
    ∀ (i : Nat) (r : ReadyState), l.get? i = some r → r ≠ .CLOSED →
      ((l.set i .CLOSED).filter fun r => decide (r ≠ .CLOSED)).length + 1 =
        (l.filter fun r => decide (r ≠ .CLOSED)).length := by
  induction l with
  | nil => intro i r h; simp at h
  | cons x xs ih =>
    intro i r h hr
    cases i with
    | zero =>
      simp only [List.get?_cons_zero, Option.some.injEq] at h
      subst h
      simp [List.filter_cons, hr]
    | succ j =>
      simp only [List.get?_cons_succ] at h
      have := ih j r h hr
      simp only [List.set_cons_succ, List.filter_cons]
      split_ifs <;> (try simp only [List.length_cons]) <;> omega

theorem live_set_live (l : List ReadyState) (r1 : ReadyState) (hr1 : r1 ≠ .CLOSED) :
    ∀ (i : Nat) (r : ReadyState), l.get? i = some r → r ≠ .CLOSED →
      ((l.set i r1).filter fun r => decide (r ≠ .CLOSED)).length =
        (l.filter fun r => decide (r ≠ .CLOSED)).length := by
  induction l with
  | nil => intro i r h; simp at h
  | cons x xs ih =>
    intro i r h hr
    cases i with
    | zero =>
      simp only [List.get?_cons_zero, Option.some.injEq] at h
      subst h
      simp [List.filter_cons, hr, hr1]
    | succ j =>
      simp only [List.get?_cons_succ] at h
      have := ih j r h hr
      simp only [List.set_cons_succ, List.filter_cons]
      split_ifs <;> (try simp only [List.length_cons]) <;> omega

theorem Chat.chat_connect_activeHandles (t : Bool) (c : Conn) :
    (Chat.connect t c).1.activeHandles ≤ c.activeHandles + 1 := by
  cases t
  · simp only [Chat.connect, Conn.activeHandles, Conn.liveSockets, Bool.false_eq_true, if_false]
    rw [live_append_connecting]
    omega
  · simp [Chat.connect]

theorem Chat.chat_onclose_activeHandles (code : Nat) (reason : String) (c : Conn) :
    (Chat.onclose code reason c).1.activeHandles ≤ c.activeHandles + 1 := by
  by_cases h : c.reconnectAttempts < MAX_RECONNECT_ATTEMPTS
  · rw [(Chat.chat_onclose_retry code reason c h).1]
    simp [Conn.activeHandles, Conn.liveSockets]
    omega
  · rw [(Chat.chat_onclose_stop code reason c h).1]
    omega

/-- No event delivered to the chat page raises the number of active handles. -/
theorem Chat.chat_step_activeHandles (c c1 : Conn) (eff : List Effect) (e : Event Chat.SendInput)
    (hs : Chat.step c e = some (c1, eff)) : c1.activeHandles ≤ c.activeHandles := by
  cases e with
  | opened i =>
    simp only [Chat.step] at hs
    split_ifs at hs with h
    have hc1 : c1 = (Chat.onopen { c with sockets := c.sockets.set i .OPEN }).1 := by
      rw [Option.some.inj hs]
    rw [hc1]
    simp only [Chat.onopen, Conn.activeHandles, Conn.liveSockets]
    rw [live_set_live c.sockets .OPEN (by decide) i _ h (by decide)]
  | message i payload =>
    simp only [Chat.step] at hs
    split_ifs at hs with h
    have hc1 : c1 = (Chat.onmessage payload c).1 := by rw [Option.some.inj hs]
    rw [hc1]
    cases payload with
    | none => exact le_refl _
    | some data =>
      simp only [Chat.onmessage]
      split <;> exact le_refl _
  | error i =>
    simp only [Chat.step] at hs
    split at hs
    · exact absurd hs (by simp)
    · have hc1 : c1 = (Chat.onerror c).1 := by rw [Option.some.inj hs]
      rw [hc1]
      exact le_refl _
    · exact absurd hs (by simp)
  | closing i =>
    simp only [Chat.step] at hs
    split at hs
    · exact absurd hs (by simp)
    · rename_i r hne hr
      simp only [Option.some.injEq, Prod.mk.injEq] at hs
      rw [← hs.1]
      simp only [Conn.activeHandles, Conn.liveSockets]
      rw [live_set_live c.sockets .CLOSING (by decide) i r hr hne]
    · exact absurd hs (by simp)
  | close i code reason =>
    simp only [Chat.step] at hs
    split at hs
    · exact absurd hs (by simp)
    · rename_i r hne hr
      have hc1 : c1 = (Chat.onclose code reason { c with sockets := c.sockets.set i .CLOSED }).1 := by
        rw [Option.some.inj hs]
      rw [hc1]
      have h1 := Chat.chat_onclose_activeHandles code reason { c with sockets := c.sockets.set i .CLOSED }
      have h2 := live_set_closed c.sockets i r hr hne
      simp only [Conn.activeHandles, Conn.liveSockets] at h1 h2 ⊢
      omega
    · exact absurd hs (by simp)
  | timer k t =>
    simp only [Chat.step] at hs
    split_ifs at hs with h
    have hc1 : c1 = (Chat.connect t { c with timers := c.timers.eraseIdx k }).1 := by
      rw [Option.some.inj hs]
    rw [hc1]
    have h1 := Chat.chat_connect_activeHandles t { c with timers := c.timers.eraseIdx k }
    have h2 : (c.timers.eraseIdx k).length = c.timers.length - 1 := by
      rw [List.length_eraseIdx]
      simp [h]
    simp only [Conn.activeHandles, Conn.liveSockets] at h1 h2 ⊢
    omega
  | user u =>
    simp only [Chat.step, Option.some.injEq, Prod.mk.injEq] at hs
    rw [← hs.1]

theorem Dashboard.dash_connect_activeHandles (t : Bool) (p : Dashboard.Page) :
    (Dashboard.connect t p).1.conn.activeHandles ≤ p.conn.activeHandles + 1 := by
  cases t
  · simp only [Dashboard.connect, Conn.activeHandles, Conn.liveSockets, Bool.false_eq_true,
      if_false]
    rw [live_append_connecting]
    omega
  · simp [Dashboard.connect]

theorem Dashboard.dash_onclose_activeHandles (code : Nat) (reason : String) (p : Dashboard.Page) :
    (Dashboard.onclose code reason p).1.conn.activeHandles ≤ p.conn.activeHandles + 1 := by
  by_cases h : p.conn.reconnectAttempts < MAX_RECONNECT_ATTEMPTS
  · rw [(Dashboard.dash_onclose_retry code reason p h).1]
    simp [Conn.activeHandles, Conn.liveSockets]
    omega
  · rw [(Dashboard.dash_onclose_stop code reason p h).1]
    omega

theorem Dashboard.onmessage_conn (dom : Dashboard.Dom) (payload : Option Decoded)
    (p : Dashboard.Page) : (Dashboard.onmessage dom payload p).1.conn = p.conn := by
  cases payload with
  | none => rfl
  | some data =>
    simp only [Dashboard.onmessage]
    split <;> rfl

/-- No event delivered to the dashboard page raises the number of active
handles. -/
theorem Dashboard.dash_step_activeHandles (dom : Dashboard.Dom) (p p1 : Dashboard.Page)
    (eff : List Effect) (e : Event Dashboard.CheckboxChange)
    (hs : Dashboard.step dom p e = some (p1, eff)) :
    p1.conn.activeHandles ≤ p.conn.activeHandles := by
  cases e with
  | opened i =>
    simp only [Dashboard.step] at hs
    split_ifs at hs with h
    have hp1 : p1 = (Dashboard.onopen (p.withSockets (p.conn.sockets.set i .OPEN))).1 := by
      rw [Option.some.inj hs]
    rw [hp1]
    simp only [Dashboard.onopen, Dashboard.Page.withSockets, Conn.activeHandles,
      Conn.liveSockets]
    rw [live_set_live p.conn.sockets .OPEN (by decide) i _ h (by decide)]
  | message i payload =>
    simp only [Dashboard.step] at hs
    split_ifs at hs with h
    have hp1 : p1 = (Dashboard.onmessage dom payload p).1 := by rw [Option.some.inj hs]
    rw [hp1, Dashboard.onmessage_conn]
  | error i =>
    simp only [Dashboard.step] at hs
    split at hs
    · exact absurd hs (by simp)
    · have hp1 : p1 = (Dashboard.onerror p).1 := by rw [Option.some.inj hs]
      rw [hp1]
      exact le_refl _
    · exact absurd hs (by simp)
  | closing i =>
    simp only [Dashboard.step] at hs
    split at hs
    · exact absurd hs (by simp)
    · rename_i r hne hr
      simp only [Option.some.injEq, Prod.mk.injEq] at hs
      rw [← hs.1]
      simp only [Dashboard.Page.withSockets, Conn.activeHandles, Conn.liveSockets]
      rw [live_set_live p.conn.sockets .CLOSING (by decide) i r hr hne]
    · exact absurd hs (by simp)
  | close i code reason =>
    simp only [Dashboard.step] at hs
    split at hs
    · exact absurd hs (by simp)
    · rename_i r hne hr
      have hp1 : p1 =
          (Dashboard.onclose code reason (p.withSockets (p.conn.sockets.set i .CLOSED))).1 := by
        rw [Option.some.inj hs]
      rw [hp1]
      have h1 := Dashboard.dash_onclose_activeHandles code reason
        (p.withSockets (p.conn.sockets.set i .CLOSED))
      have h2 := live_set_closed p.conn.sockets i r hr hne
      simp only [Dashboard.Page.withSockets, Conn.activeHandles, Conn.liveSockets] at h1 h2 ⊢
      omega
    · exact absurd hs (by simp)
  | timer k t =>
    simp only [Dashboard.step] at hs
    split_ifs at hs with h
    have hp1 : p1 = (Dashboard.connect t
        { p with conn := { p.conn with timers := p.conn.timers.eraseIdx k } }).1 := by
      rw [Option.some.inj hs]
    rw [hp1]
    have h1 := Dashboard.dash_connect_activeHandles t
      { p with conn := { p.conn with timers := p.conn.timers.eraseIdx k } }
    have h2 : (p.conn.timers.eraseIdx k).length = p.conn.timers.length - 1 := by
      rw [List.length_eraseIdx]
      simp [h]
    simp only [Conn.activeHandles, Conn.liveSockets] at h1 h2 ⊢
    omega
  | user u =>
    simp only [Dashboard.step, Option.some.injEq, Prod.mk.injEq] at hs
    rw [← hs.1]

/-- C9: in every state reachable from page load by open, message, error,
closing, close, timer and user events, the sockets created by `connect()` that
have not yet closed plus the pending reconnect timers number at most one.  In
chat.js and in dashboard.js. -/
theorem at_most_one_active_handle :
    (∀ c : Conn, Chat.Reachable c → c.liveSockets + c.timers.length ≤ 1) ∧
    (∀ (dom : Dashboard.Dom) (p : Dashboard.Page), Dashboard.Reachable dom p →
      p.conn.liveSockets + p.conn.timers.length ≤ 1) := by
  constructor
  · intro c hc
    induction hc with
    | load t => cases t <;> decide
    | next e _ hs ih =>
      exact le_trans (Chat.chat_step_activeHandles _ _ _ e hs) ih
  · intro dom p hp
    induction hp with
    | load t b => cases t <;> simp [Dashboard.pageLoad, Dashboard.connect, Conn.initial,
        Conn.liveSockets]
    | next e _ hs ih =>
      exact le_trans (Dashboard.dash_step_activeHandles dom _ _ _ e hs) ih

theorem at_most_one_active_handle_witness :
    Chat.Reachable ⟨1, [.CLOSED], some 0, [1000]⟩ ∧
    (⟨1, [.CLOSED], some 0, [1000]⟩ : Conn).liveSockets +
      (⟨1, [.CLOSED], some 0, [1000]⟩ : Conn).timers.length ≤ 1 :=
  have hr : Chat.Reachable ⟨1, [.CLOSED], some 0, [1000]⟩ :=
    Chat.Reachable.next (.close 0 1006 "") (Chat.Reachable.load false) rfl
  ⟨hr, at_most_one_active_handle.1 _ hr⟩

/-! ## The rolling sample buffer -/

theorem Dashboard.ChartData.get_set_same (cd : Dashboard.ChartData) (k : Dashboard.SeriesKey)
    (xs : List Dashboard.Sample) : (cd.set k xs).get k = xs := by
  cases k <;> rfl

theorem Dashboard.ChartData.get_set_other (cd : Dashboard.ChartData)
    (k k1 : Dashboard.SeriesKey) (xs : List Dashboard.Sample) (h : k1 ≠ k) :
    (cd.set k xs).get k1 = cd.get k1 := by
  cases k <;> cases k1 <;> first | rfl | exact absurd rfl h

/-- One `updateMetric` call on an own key with a numeric value: the sample is
pushed and the series cut back to its last 60 elements. -/
theorem Dashboard.updateMetric_own (dom : Dashboard.Dom) (cd : Dashboard.ChartData)
    (metric : JSVal) (k : Dashboard.SeriesKey) (q : ℚ) (t : JSVal)
    (hk : Dashboard.lookup metric = .own k) (hlen : (cd.get k).length ≤ 60) :
    Dashboard.updateMetric dom cd metric (.num q) t =
      (cd.set k ((cd.get k ++ [(⟨.num q, t⟩ : Dashboard.Sample)]).drop
          ((cd.get k ++ [(⟨.num q, t⟩ : Dashboard.Sample)]).length - 60)),
        .normal) := by
  simp only [Dashboard.updateMetric, JSVal.isNumber, hk, Dashboard.MAX_CHART_POINTS]
  by_cases h : (cd.get k).length = 60
  · have h1 : (cd.get k ++ [(⟨.num q, t⟩ : Dashboard.Sample)]).length - 60 = 1 := by
      simp [h]
    rw [h1]
    simp [h]
  · have h1 : (cd.get k ++ [(⟨.num q, t⟩ : Dashboard.Sample)]).length - 60 = 0 := by
      simp; omega
    have h2 : ¬ (cd.get k ++ [(⟨.num q, t⟩ : Dashboard.Sample)]).length > 60 := by
      simp; omega
    rw [h1]
    simp only [Bool.not_true, Bool.and_false, Bool.false_eq_true, if_false, h2, List.drop_zero]

theorem drop_window {α : Type} (A B : List α) (n : Nat) :
    (A.drop (A.length - n) ++ B).drop ((A.drop (A.length - n) ++ B).length - n) =
      (A ++ B).drop ((A ++ B).length - n) := by
  have h1 : A.drop (A.length - n) ++ B = (A ++ B).drop (A.length - n) := by
    rw [List.drop_append_of_le_length (Nat.sub_le _ _)]
  rw [h1, List.drop_drop]
  congr 1
  simp only [List.length_drop, List.length_append]
  omega

theorem Dashboard.recordAll_own (dom : Dashboard.Dom) (metric : JSVal) (k : Dashboard.SeriesKey)
    (hk : Dashboard.lookup metric = .own k) (samples : List Dashboard.Sample) :
    ∀ cd : Dashboard.ChartData, (cd.get k).length ≤ 60 →
      (∀ s ∈ samples, s.value.isNumber = true) →
      ∃ cd1, Dashboard.recordAll dom metric cd samples = (cd1, .normal) ∧
        cd1.get k = (cd.get k ++ samples).drop ((cd.get k ++ samples).length - 60) ∧
        ∀ k1, k1 ≠ k → cd1.get k1 = cd.get k1 := by
  induction samples with
  | nil =>
    intro cd hlen _
    refine ⟨cd, rfl, ?_, fun _ _ => rfl⟩
    simp [Nat.sub_eq_zero_of_le hlen]
  | cons s rest ih =>
    intro cd hlen hnum
    obtain ⟨v, t⟩ := s
    have hv : v.isNumber = true := hnum ⟨v, t⟩ (List.mem_cons_self _ _)
    cases v with
    | num q =>
      have hstep := Dashboard.updateMetric_own dom cd metric k q t hk hlen
      simp only [Dashboard.recordAll, hstep]
      have hlen1 : ((cd.set k ((cd.get k ++ [(⟨.num q, t⟩ : Dashboard.Sample)]).drop
          ((cd.get k ++ [(⟨.num q, t⟩ : Dashboard.Sample)]).length - 60))).get k).length ≤ 60 := by
        rw [Dashboard.ChartData.get_set_same]
        simp only [List.length_drop, List.length_append, List.length_singleton]
        omega
      obtain ⟨cd1, hrun, hget, hother⟩ := ih _ hlen1
        (fun s hs => hnum s (List.mem_cons_of_mem _ hs))
      refine ⟨cd1, hrun, ?_, ?_⟩
      · rw [hget, Dashboard.ChartData.get_set_same, drop_window]
        simp
      · intro k1 hk1
        rw [hother k1 hk1, Dashboard.ChartData.get_set_other _ _ _ _ hk1]
    | undefined => simp [JSVal.isNumber] at hv
    | null => simp [JSVal.isNumber] at hv
    | bool b => simp [JSVal.isNumber] at hv
    | str s => simp [JSVal.isNumber] at hv

/-- C3: recording any list of `N` numeric samples with `updateMetric` into one
existing series that starts empty succeeds and leaves in that series the last
`min N 60` recorded samples in insertion order; so the length is `min N 60`,
never above `MAX_CHART_POINTS`, and exactly 60 when `N > 60`, the oldest
samples having been dropped first. -/
theorem rolling_window_keeps_last_sixty (dom : Dashboard.Dom) (metric : JSVal)
    (k : Dashboard.SeriesKey) (hk : Dashboard.lookup metric = .own k)
    (cd : Dashboard.ChartData) (hempty : cd.get k = []) (samples : List Dashboard.Sample)
    (hnum : ∀ s ∈ samples, s.value.isNumber = true) :
    ∃ cd1, Dashboard.recordAll dom metric cd samples = (cd1, .normal) ∧
      cd1.get k = samples.drop (samples.length - min samples.length 60) ∧
      (cd1.get k).length = min samples.length 60 ∧
      (cd1.get k).length ≤ Dashboard.MAX_CHART_POINTS ∧
      (60 < samples.length → (cd1.get k).length = 60) := by
  obtain ⟨cd1, hrun, hget, _⟩ :=
    Dashboard.recordAll_own dom metric k hk samples cd (by simp [hempty]) hnum
  rw [hempty, List.nil_append] at hget
  have hidx : samples.length - min samples.length 60 = samples.length - 60 := by omega
  refine ⟨cd1, hrun, by rw [hget, hidx], ?_, ?_, ?_⟩
  · rw [hget, List.length_drop]; omega
  · rw [hget, List.length_drop, Dashboard.MAX_CHART_POINTS]; omega
  · intro h
    rw [hget, List.length_drop]; omega

theorem rolling_window_keeps_last_sixty_witness :
    Dashboard.lookup (.str "cpu") = .own .cpu ∧
    ∃ cd1, Dashboard.recordAll Dashboard.cardsDom (.str "cpu") Dashboard.chartData
        [⟨.num 1, .num 10⟩, ⟨.num 2, .num 20⟩] = (cd1, .normal) ∧
      cd1.get .cpu = [⟨.num 1, .num 10⟩, ⟨.num 2, .num 20⟩] :=
  ⟨by decide,
    by
      obtain ⟨cd1, h1, h2, _⟩ :=
        rolling_window_keeps_last_sixty Dashboard.cardsDom (.str "cpu") .cpu (by decide)
          Dashboard.chartData rfl [⟨.num 1, .num 10⟩, ⟨.num 2, .num 20⟩]
          (by intro s hs; simp at hs; rcases hs with h | h <;> rw [h] <;> rfl)
      exact ⟨cd1, h1, by simpa using h2⟩⟩

/-! ## The message router -/

/-- A metric frame is routed to `updateMetric` exactly once, with the fields in
the order `metric`, `value`, `ts`; the chart data and the completion are those
of that call. -/
theorem Dashboard.handleMessage_metric (dom : Dashboard.Dom) (cd : Dashboard.ChartData)
    (m v t : JSVal) :
    Dashboard.handleMessage dom cd
        (.obj [("type", .str "metric"), ("metric", m), ("value", v), ("ts", t)]) =
      ((Dashboard.updateMetric dom cd m v t).1, [.updateMetric m v t],
        (Dashboard.updateMetric dom cd m v t).2) := by
  simp [Dashboard.handleMessage, Decoded.read, List.lookup]

/-- The frame of the example: one `updateMetric("cpu", 42.5, 1000)`, no report
from the `catch`, one sample appended to the `cpu` series and the other two
series untouched. -/
theorem Dashboard.onmessage_cpu_example (dom : Dashboard.Dom) (p : Dashboard.Page)
    (hlen : p.chartData.cpu.length < 60) :
    Dashboard.onmessage dom
        (some (.obj [("type", .str "metric"), ("metric", .str "cpu"), ("value", .num 42.5),
          ("ts", .num 1000)])) p =
      ({ p with chartData := { p.chartData with
            cpu := p.chartData.cpu ++ [⟨.num 42.5, .num 1000⟩] } },
        [.updateMetric (.str "cpu") (.num 42.5) (.num 1000)]) := by
  have hk : Dashboard.lookup (.str "cpu") = .own .cpu := by decide
  have hstep := Dashboard.updateMetric_own dom p.chartData (.str "cpu") .cpu 42.5 (.num 1000) hk
    (by simp only [Dashboard.ChartData.get]; omega)
  have hz : (p.chartData.get .cpu ++
      [(⟨.num 42.5, .num 1000⟩ : Dashboard.Sample)]).length - 60 = 0 := by
    simp only [Dashboard.ChartData.get, List.length_append, List.length_singleton]; omega
  rw [hz, List.drop_zero] at hstep
  simp only [Dashboard.onmessage, Dashboard.handleMessage_metric, hstep]
  rfl

/-- C6 fails at the metric name `constructor`: `chartData["constructor"]` is the
inherited `Object` function, the guard passes, the call of its missing `push`
throws, and the `catch` of `ws.onmessage` reports a parse failure for a frame
that decoded and carries a numeric value.  `updateMetric` was still invoked
exactly once and the chart data is unchanged. -/
theorem inherited_metric_name_reports_decode_error (dom : Dashboard.Dom) (p : Dashboard.Page) :
    Dashboard.onmessage dom
        (some (.obj [("type", .str "metric"), ("metric", .str "constructor"), ("value", .num 1),
          ("ts", .num 0)])) p =
      (p, [.updateMetric (.str "constructor") (.num 1) (.num 0),
        .consoleError "[WS] Failed to parse message:"]) := by
  have hk : Dashboard.lookup (.str "constructor") = .inherited := by decide
  have hstep : Dashboard.updateMetric dom p.chartData (.str "constructor") (.num 1) (.num 0) =
      (p.chartData, .thrown "TypeError") := by
    simp [Dashboard.updateMetric, JSVal.isNumber, hk]
  simp only [Dashboard.onmessage, Dashboard.handleMessage_metric, hstep]
  rfl

/-- C7 as stated fails: recording under a name that is not a key of `chartData`
creates no series and stores nothing. -/
theorem unknown_series_is_not_created :
    Dashboard.updateMetric Dashboard.cardsDom Dashboard.chartData (.str "humidity") (.num 55)
        (.num 1000) = (Dashboard.chartData, .normal) ∧
    Dashboard.lookup (.str "humidity") = .missing := by
  constructor <;> decide

/-- C7 amended: for a name that is one of the keys of `chartData`
(`temperature`, `stock`, `cpu`), every numeric value and every timestamp,
`updateMetric` completes and the last element of that series is then the
sample recorded; for a name that is neither such a key nor a property
inherited from `Object.prototype`, no series is created and `chartData` is
left as it was. -/
theorem record_appends_to_existing_series_only (dom : Dashboard.Dom)
    (cd : Dashboard.ChartData) (metric : JSVal) (q : ℚ) (t : JSVal) :
    (∀ k, Dashboard.lookup metric = .own k →
      (Dashboard.updateMetric dom cd metric (.num q) t).2 = .normal ∧
      ((Dashboard.updateMetric dom cd metric (.num q) t).1.get k).getLast? =
        some ⟨.num q, t⟩) ∧
    (Dashboard.lookup metric = .missing →
      Dashboard.updateMetric dom cd metric (.num q) t = (cd, .normal)) := by
  constructor
  · intro k hk
    simp only [Dashboard.updateMetric, JSVal.isNumber, hk, Bool.not_true, Bool.and_false,
      Bool.false_eq_true, if_false]
    split_ifs with h
    · refine ⟨rfl, ?_⟩
      rw [Dashboard.ChartData.get_set_same]
      cases hxs : cd.get k with
      | nil => simp [hxs, Dashboard.MAX_CHART_POINTS] at h
      | cons x xs => simp
    · refine ⟨rfl, ?_⟩
      rw [Dashboard.ChartData.get_set_same]
      simp
  · intro hk
    simp [Dashboard.updateMetric, JSVal.isNumber, hk]

theorem record_appends_to_existing_series_only_witness :
    Dashboard.lookup (.str "stock") = .own .stock ∧
    ((Dashboard.updateMetric Dashboard.cardsDom Dashboard.chartData (.str "stock") (.num 7)
        (.num 3)).1.get .stock).getLast? = some ⟨.num 7, .num 3⟩ ∧
    Dashboard.lookup (.str "humidity") = .missing ∧
    Dashboard.updateMetric Dashboard.cardsDom Dashboard.chartData (.str "humidity") (.num 7)
        (.num 3) = (Dashboard.chartData, .normal) :=
  ⟨by decide,
    ((record_appends_to_existing_series_only Dashboard.cardsDom Dashboard.chartData
      (.str "stock") 7 (.num 3)).1 .stock (by decide)).2,
    by decide,
    (record_appends_to_existing_series_only Dashboard.cardsDom Dashboard.chartData
      (.str "humidity") 7 (.num 3)).2 (by decide)⟩

/-- C8 as stated fails: JSON `null` decodes, and its `type` is none of the tags,
yet in both files `handleMessage` throws at the read of `data.type`, and the
`catch` of `ws.onmessage` reports a parse failure instead of the warning. -/
theorem null_payload_reports_decode_error :
    Decoded.read .null "type" = .undefined ∧
    Chat.handleMessage .null = ([], .thrown "TypeError") ∧
    Chat.onmessage (some .null) (Chat.pageLoad false) =
      (Chat.pageLoad false, [.consoleLog "[WS] Message received:" [],
        .consoleError "[WS] Failed to parse message:"]) ∧
    Dashboard.handleMessage Dashboard.cardsDom Dashboard.chartData .null =
      (Dashboard.chartData, [], .thrown "TypeError") ∧
    Dashboard.onmessage Dashboard.cardsDom (some .null)
        (Dashboard.pageLoad false ⟨true, true, true⟩) =
      (Dashboard.pageLoad false ⟨true, true, true⟩,
        [.consoleError "[WS] Failed to parse message:"]) := by
  decide

/-- C8 amended: a decoded frame other than JSON `null` whose `type` is not a
tag of the `switch` makes `handleMessage` call no variant handler and complete
normally, so `ws.onmessage` reports no decode error; `reconnectAttempts`, the
sockets, the timers and every series of `chartData` are left as they were, and
the only call is the `console.warn`.  In chat.js (tags `chat`, `system`,
`error`) and in dashboard.js (tags `metric`, `system`). -/
theorem unknown_type_only_warns (data : Decoded) (hdata : data ≠ .null) :
    ((data.read "type" ≠ .str "chat" ∧ data.read "type" ≠ .str "system" ∧
        data.read "type" ≠ .str "error") →
      Chat.handleMessage data =
        ([.consoleWarn "[WS] Unknown message type:" [data.read "type"]], .normal) ∧
      ∀ c : Conn, Chat.onmessage (some data) c =
        (c, [.consoleLog "[WS] Message received:" [],
          .consoleWarn "[WS] Unknown message type:" [data.read "type"]])) ∧
    ((data.read "type" ≠ .str "metric" ∧ data.read "type" ≠ .str "system") →
      ∀ (dom : Dashboard.Dom),
        (∀ cd : Dashboard.ChartData, Dashboard.handleMessage dom cd data =
          (cd, [.consoleWarn "[WS] Unknown message type:" [data.read "type"]], .normal)) ∧
        ∀ p : Dashboard.Page, Dashboard.onmessage dom (some data) p =
          (p, [.consoleWarn "[WS] Unknown message type:" [data.read "type"]])) := by
  constructor
  · rintro ⟨h1, h2, h3⟩
    have hm : Chat.handleMessage data =
        ([.consoleWarn "[WS] Unknown message type:" [data.read "type"]], .normal) := by
      cases data with
      | null => exact absurd rfl hdata
      | fieldless => simp [Chat.handleMessage, h1, h2, h3]
      | obj fields => simp [Chat.handleMessage, h1, h2, h3]
    refine ⟨hm, fun c => ?_⟩
    simp only [Chat.onmessage, hm]
    rfl
  · rintro ⟨h1, h2⟩ dom
    have hm : ∀ cd : Dashboard.ChartData, Dashboard.handleMessage dom cd data =
        (cd, [.consoleWarn "[WS] Unknown message type:" [data.read "type"]], .normal) := by
      intro cd
      cases data with
      | null => exact absurd rfl hdata
      | fieldless => simp [Dashboard.handleMessage, h1, h2]
      | obj fields => simp [Dashboard.handleMessage, h1, h2]
    refine ⟨hm, fun p => ?_⟩
    simp only [Dashboard.onmessage, hm]

theorem unknown_type_only_warns_witness :
    (Decoded.obj [("type", .str "ping")] ≠ .null) ∧
    Chat.handleMessage (.obj [("type", .str "ping")]) =
      ([.consoleWarn "[WS] Unknown message type:" [.str "ping"]], .normal) ∧
    Dashboard.handleMessage Dashboard.cardsDom Dashboard.chartData (.obj [("type", .str "ping")]) =
      (Dashboard.chartData, [.consoleWarn "[WS] Unknown message type:" [.str "ping"]], .normal) :=
  ⟨by decide,
    ((unknown_type_only_warns (.obj [("type", .str "ping")]) (by decide)).1 (by decide)).1,
    (((unknown_type_only_warns (.obj [("type", .str "ping")]) (by decide)).2 (by decide))
      Dashboard.cardsDom).1 Dashboard.chartData⟩

/-! ## Sending while not open -/

/-- C4 as stated fails: with an empty name field and the connection not open,
`sendMessage` of chat.js returns at its first guard and reports nothing. -/
theorem send_with_empty_name_reports_nothing :
    notOpen none = true ∧ Chat.sendMessage "" "hello" 0 none = [] ∧
    notOpen (some .CLOSED) = true ∧ Chat.sendMessage "   " "hello" 0 (some .CLOSED) = [] := by
  decide

/-- C4 amended: while the connection is not open (`ws` null, or its
`readyState` CONNECTING, CLOSING or CLOSED) and whatever the input fields
hold, neither send function calls `ws.send` and the connection variables are
unchanged (nothing is kept for later); `sendMessage` of chat.js reports
"Chưa kết nối với server!" when the trimmed name and the trimmed text are both
non-empty and makes no call at all when either is empty; `sendSubscription`
of dashboard.js makes no call at all. -/
theorem send_while_not_open (ws : Option ReadyState) (hws : notOpen ws = true)
    (nameValue textValue : String) (now : Nat) (b : Dashboard.Checkboxes) :
    (ws = none ∨ ws = some .CONNECTING ∨ ws = some .CLOSING ∨ ws = some .CLOSED) ∧
    sentFrames (Chat.sendMessage nameValue textValue now ws) = [] ∧
    ((trim nameValue ≠ "" ∧ trim textValue ≠ "") →
      Chat.sendMessage nameValue textValue now ws =
        [.localStorageSetItem "chatName" (trim nameValue),
          .addErrorMessage (.str "Chưa kết nối với server!")]) ∧
    ((trim nameValue = "" ∨ trim textValue = "") →
      Chat.sendMessage nameValue textValue now ws = []) ∧
    Dashboard.sendSubscription ws b = [] ∧
    (∀ c : Conn, c.wsReadyState = ws →
      Chat.step c (.user ⟨nameValue, textValue, now⟩) =
        some (c, Chat.sendMessage nameValue textValue now ws)) := by
  refine ⟨?_, ?_, ?_, ?_, ?_, ?_⟩
  · cases ws with
    | none => exact Or.inl rfl
    | some r => cases r <;> simp_all [notOpen]
  · simp only [Chat.sendMessage, hws]
    split_ifs <;> rfl
  · rintro ⟨h1, h2⟩
    simp [Chat.sendMessage, hws, h1, h2]
  · intro h
    simp [Chat.sendMessage, h]
  · simp [Dashboard.sendSubscription, hws]
  · intro c hc
    simp [Chat.step, hc]

theorem send_while_not_open_witness :
    notOpen (some .CONNECTING) = true ∧
    (trim " An " ≠ "" ∧ trim "xin chào" ≠ "") ∧
    Chat.sendMessage " An " "xin chào" 5 (some .CONNECTING) =
      [.localStorageSetItem "chatName" (trim " An "),
        .addErrorMessage (.str "Chưa kết nối với server!")] :=
  ⟨by decide, by decide,
    (send_while_not_open (some .CONNECTING) (by decide) " An " "xin chào" 5
      ⟨true, false, true⟩).2.2.1 (by decide)⟩

end WsClient
